import Mathlib

/-!
Verification development for the pympress `poppler-python` binding.

Part 1 embeds the two C source files (`popplermodule.c`,
`pypoppler-private.h`) shallowly: the module-initialisation entry point
`initpoppler` becomes a pure state-transformer over an explicit model of
the interpreter's process-wide state, and the `PYCAIRO_VERSION_HEX`
macro becomes a function on natural numbers.

Part 2 (further down) models, from the specification's own words, the
minimal PDF document core that the spec describes (xref overlay,
resolved-object cache, content-stream interpretation, xref recovery,
authentication gate); that code is not part of `src/`.
-/

namespace Binding

/-- A Python value as far as the binding manipulates them: the 3-tuple
built by `Py_BuildValue("iii", ...)`, a registered class object, an
exported integer constant, or anything else. -/
inductive PyValue where
  | tuple3 : Int → Int → Int → PyValue
  | classObj : String → PyValue
  | constObj : String → Int → PyValue
  | other : PyValue
deriving DecidableEq, Repr

/-- A Python module: its dictionary, as an insertion-ordered association
list.  `PyModule_GetDict` returns this dictionary; `PyModule_AddObject`
and the generated registration code append to it (later writes shadow
earlier ones, as in a Python dict). -/
structure PyModule where
  dict : List (String × PyValue)
deriving DecidableEq, Repr

/-- Python-dict lookup: the LAST binding of a key wins, matching the
overwrite semantics of `PyDict_SetItemString`. -/
def pyDictGet (d : List (String × PyValue)) (k : String) : Option PyValue :=
  (d.filter (fun e => e.1 = k)).getLast?.map (fun e => e.2)

/-- The process-wide interpreter state touched by `initpoppler`: the
file-scope `Pycairo_CAPI` pointer (line 30 of `popplermodule.c`, `none`
models NULL), whether `init_pygobject` has run, the interpreter's global
module registry (as mutated by `Py_InitModule`), and the thread-global
pending-error indicator read by `PyErr_Occurred`. -/
structure PyState where
  pycairoCAPI : Option Unit
  pygobjectReady : Bool
  modules : List (String × PyModule)
  errorPending : Bool
deriving DecidableEq, Repr

/-- Write a module into the interpreter's global registry under a name
(used by `Py_InitModule` and by every later mutation of the module). -/
def setModule (name : String) (m : PyModule) (s : PyState) : PyState :=
  { s with modules := (s.modules.filter (fun e => e.1 ≠ name)) ++ [(name, m)] }

/-- Registry lookup by module name. -/
def getModule (s : PyState) (name : String) : Option PyModule :=
  (s.modules.filter (fun e => e.1 = name)).getLast?.map (fun e => e.2)

/-- Parameters of the build and of the generated code that
`popplermodule.c` links against: the class list registered by
`py_poppler_register_classes`, the constant table exported by
`py_poppler_add_constants`, the `PYPOPPLER_*_VERSION` macros from the
build configuration, and whether the generated registration code leaves
a Python error pending (the condition `PyErr_Occurred` tests at line
59). -/
structure BindingEnv where
  classes : List String
  constants : List (String × Int)
  verMajor : Int
  verMinor : Int
  verMicro : Int
  registrationError : Bool
deriving DecidableEq, Repr

/-- Strip a leading pattern from a string when present, as
`py_poppler_add_constants (m, "POPPLER_")` does for each constant name
(pygtk `pyg_enum_add_constants` behaviour). -/
def stripPfx (p s : String) : String :=
  if p.isPrefixOf s then s.drop p.length else s

/-- One observable step of `initpoppler`, in execution order. -/
inductive InitStep where
  | pycairoImport
  | pygobjectInit
  | moduleInit : String → InitStep
  | classRegistration : String → InitStep
  | constantExport : String → Int → InitStep
  | versionExport
deriving DecidableEq, Repr

/-- How `initpoppler` ends: a normal return to the caller, or process
termination through `Py_FatalError` (the C string passed there is
"can not initialise module globalkeys"-style; the message is irrelevant
to the model). -/
inductive InitOutcome where
  | returned
  | fatalExit
deriving DecidableEq, Repr

/-- The constant-table entries actually exported: each name with the
given pattern stripped, paired with its value. -/
def exportedConstants (pfx : String) (cs : List (String × Int)) :
    List (String × Int) :=
  cs.map (fun c => (stripPfx pfx c.1, c.2))

/-- Shallow embedding of `initpoppler` (lines 37-62 of
`popplermodule.c`).  In order: `Pycairo_IMPORT` writes the file-scope
CAPI pointer; `init_pygobject ()`; `Py_InitModule ("poppler", ...)`
creates the module and registers it process-wide;
`py_poppler_register_classes (d)` fills the module dictionary with the
classes; `py_poppler_add_constants (m, "POPPLER_")` exports the
constants with the POPPLER_ pattern stripped; `PyModule_AddObject`
stores the `pypoppler_version` 3-tuple; finally `PyErr_Occurred ()` is
tested and a pending error leads to `Py_FatalError`, which terminates
the process.  Returns the final process state, the observable step
trace, and the outcome. -/
def initpoppler (env : BindingEnv) (s : PyState) :
    PyState × List InitStep × InitOutcome :=
  let s1 : PyState := { s with pycairoCAPI := some () }
  let s2 : PyState := { s1 with pygobjectReady := true }
  let m0 : PyModule := { dict := [] }
  let s3 : PyState := setModule "poppler" m0 s2
  let m1 : PyModule :=
    { m0 with dict := m0.dict ++
        env.classes.map (fun c => (c, PyValue.classObj c)) }
  let s4 : PyState := setModule "poppler" m1 s3
  let exported := exportedConstants "POPPLER_" env.constants
  let m2 : PyModule :=
    { m1 with dict := m1.dict ++
        exported.map (fun c => (c.1, PyValue.constObj c.1 c.2)) }
  let s5 : PyState := setModule "poppler" m2 s4
  let m3 : PyModule :=
    { m2 with dict := m2.dict ++
        [("pypoppler_version",
          PyValue.tuple3 env.verMajor env.verMinor env.verMicro)] }
  let s6 : PyState := setModule "poppler" m3 s5
  let s7 : PyState :=
    { s6 with errorPending := s6.errorPending || env.registrationError }
  let trace :=
    [InitStep.pycairoImport, InitStep.pygobjectInit,
     InitStep.moduleInit "poppler"]
    ++ env.classes.map InitStep.classRegistration
    ++ exported.map (fun c => InitStep.constantExport c.1 c.2)
    ++ [InitStep.versionExport]
  if s7.errorPending then (s7, trace, InitOutcome.fatalExit)
  else (s7, trace, InitOutcome.returned)

/-- Shallow embedding of the `PYCAIRO_VERSION_HEX` macro of
`pypoppler-private.h` line 26:
`(PYCAIRO_MAJOR_VERSION<<24)|(PYCAIRO_MINOR_VERSION<<16)|(PYCAIRO_MICRO_VERSION<<8)`. -/
def pycairoVersionHex (maj minor micro : Nat) : Nat :=
  ((maj <<< 24) ||| (minor <<< 16)) ||| (micro <<< 8)

/-- A concrete build environment in which the generated registration
code leaves a Python error pending. -/
def envC1 : BindingEnv :=
  { classes := ["PopplerDocument"],
    constants := [("POPPLER_ERROR_INVALID", 0)],
    verMajor := 0, verMinor := 12, verMicro := 1,
    registrationError := true }

/-- A pristine interpreter state: no cairo CAPI loaded, no modules, no
pending error. -/
def st0 : PyState :=
  { pycairoCAPI := none, pygobjectReady := false, modules := [],
    errorPending := false }

end Binding

namespace PdfCore

/-- Modelled from the spec: the `PdfObject` tagged variant of §3 (the
repository contains no PDF object model of its own: the whole document
core exists only in the specification's design).  `real` carries a
scaled integer mantissa and a decimal-place count; `str` carries raw
bytes; `stream` carries its dictionary and raw byte span; `ref` is an
unresolved indirect reference (objectNumber, generation). -/
inductive PdfObject where
  | null : PdfObject
  | boolean : Bool → PdfObject
  | integer : Int → PdfObject
  | real : Int → Nat → PdfObject
  | str : List Nat → PdfObject
  | name : String → PdfObject
  | arr : List PdfObject → PdfObject
  | dict : List (String × PdfObject) → PdfObject
  | stream : List (String × PdfObject) → List Nat → PdfObject
  | ref : Nat → Nat → PdfObject

/-- Modelled from the spec: the kind of an `XrefEntry` of §3:
Free | InUse (byte offset) | Compressed (container object, index within
the container stream). -/
inductive XrefKind where
  | free : XrefKind
  | inUse : Nat → XrefKind
  | compressed : Nat → Nat → XrefKind
deriving DecidableEq, Repr

/-- Modelled from the spec: an `XrefEntry` of §3: location kind plus the
generation distinguishing object reuse across incremental updates. -/
structure XrefEntry where
  kind : XrefKind
  generation : Nat
deriving DecidableEq, Repr

/-- Modelled from the spec: one xref section: the map from object number
to entry contributed by one incremental update (§3, §4.3). -/
abbrev XrefSection := List (Nat × XrefEntry)

/-- Modelled from the spec: the effective xref map of §4.3: overlay the
`/Prev`-chained sections earliest-first, so that each later section
overrides the earlier ones at the object numbers it mentions. -/
def effectiveXref (sections : List XrefSection) : Nat → Option XrefEntry :=
  sections.foldl
    (fun acc sec n =>
      match sec.lookup n with
      | some e => some e
      | none => acc n)
    (fun _ => none)

/-- Modelled from the spec: a `Document` of §3: the xref sections
(earliest-first), access to the byte source (parsing an indirect object
at a byte offset, and fetching an object out of an ObjStm container by
container number and index), and the lazily filled resolved-object
cache keyed by (objectNumber, generation). -/
structure Document where
  sections : List XrefSection
  parseAt : Nat → Option (Nat × Nat × PdfObject)
  containerAt : Nat → Nat → Option PdfObject
  cache : List ((Nat × Nat) × PdfObject)

/-- Modelled from the spec: fetch an object through the effective xref
map, bypassing the cache (§4.3): the entry's generation must match, an
in-use entry is parsed at its byte offset (and must carry the requested
object number and generation), a compressed entry is read from its
ObjStm container. -/
def fetch (d : Document) (num gen : Nat) : Option PdfObject :=
  match effectiveXref d.sections num with
  | none => none
  | some e =>
    if e.generation = gen then
      match e.kind with
      | XrefKind.free => none
      | XrefKind.inUse off =>
        match d.parseAt off with
        | some (n, g, o) => if n = num ∧ g = gen then some o else none
        | none => none
      | XrefKind.compressed c i => d.containerAt c i
    else none

/-- Modelled from the spec: lookup in the resolved-object cache by
(objectNumber, generation) key. -/
def cacheGet (c : List ((Nat × Nat) × PdfObject)) (k : Nat × Nat) :
    Option PdfObject :=
  match c with
  | [] => none
  | (k2, v) :: rest => if k2 = k then some v else cacheGet rest k

/-- Modelled from the spec: `resolve` with the lazily populated,
never-evicted resolved-object cache (§3, §4.3): a hit returns the cached
object unchanged, a miss fetches through the xref map and inserts the
result; nothing is ever removed. -/
def resolve (d : Document) (num gen : Nat) : Option PdfObject × Document :=
  match cacheGet d.cache (num, gen) with
  | some v => (some v, d)
  | none =>
    match fetch d num gen with
    | some v => (some v, { d with cache := ((num, gen), v) :: d.cache })
    | none => (none, d)

/-- Modelled from the spec: one token of a decoded content stream
(§4.5): either an operand, or a bare keyword treated as an operator. -/
inductive CToken where
  | operand : PdfObject → CToken
  | opKeyword : String → CToken

/-- Modelled from the spec: a `ContentOperation` of §3: an operator with
the operand list that was bound to it. -/
structure ContentOperation where
  op : String
  operands : List PdfObject

/-- Modelled from the spec: the operand count each supported content
operator expects (§4.5); `none` marks an unknown operator. -/
def expectedOperands (k : String) : Option Nat :=
  if k = "Tj" then some 1 else if k = "TJ" then some 1
  else if k = "m" then some 2 else if k = "l" then some 2
  else if k = "c" then some 6 else if k = "re" then some 4
  else if k = "q" then some 0 else if k = "Q" then some 0
  else if k = "cm" then some 6 else if k = "g" then some 1
  else if k = "rg" then some 3 else if k = "BT" then some 0
  else if k = "ET" then some 0 else none

/-- Modelled from the spec: an `OperatorError` report (§4.5, §7): the
offending operator and the operand count it was given. -/
inductive OpError where
  | operatorError : String → Nat → OpError
deriving DecidableEq, Repr

/-- Modelled from the spec: the operand-stack walk of §4.5: operands
accumulate until an operator keyword is read, which binds the
accumulated operands and clears the stack; an operator with the wrong
operand count (or an unknown operator) is reported as an `OpError` and
interpretation continues with the next operator. -/
def interpretTokens : List CToken → List PdfObject →
    List ContentOperation × List OpError
  | [], _ => ([], [])
  | CToken.operand o :: rest, stack => interpretTokens rest (stack ++ [o])
  | CToken.opKeyword k :: rest, stack =>
    let r := interpretTokens rest []
    match expectedOperands k with
    | some n =>
      if stack.length = n then ({ op := k, operands := stack } :: r.1, r.2)
      else (r.1, OpError.operatorError k stack.length :: r.2)
    | none => (r.1, OpError.operatorError k stack.length :: r.2)

/-- Modelled from the spec: a `Page` view as far as content extraction
is concerned (§3, §4.5): the token sequence of its decoded, concatenated
content streams. -/
structure Page where
  contentTokens : List CToken

/-- Modelled from the spec: `operations(page)` of §4.5: interpret the
page's content tokens starting from an empty operand stack, returning
the finite operation sequence and the collected operator errors. -/
def operations (p : Page) : List ContentOperation × List OpError :=
  interpretTokens p.contentTokens []

/-- Modelled from the spec: one lexical atom of the raw byte source; a
byte offset is an index into the atom list (the §4.1 Lexer that turns
raw bytes into such atoms is factored out).  The atoms are the
`num gen obj` header, an object payload, the `endobj` marker, a classic
xref section, a trailer (carrying its `/Root` object number and
optional `/Prev` offset), the `startxref` record, and the `%%EOF`
marker. -/
inductive Atom where
  | objBegin : Nat → Nat → Atom
  | payload : PdfObject → Atom
  | objEnd : Atom
  | xrefSec : XrefSection → Atom
  | trailerDict : Nat → Option Nat → Atom
  | startxrefMark : Nat → Atom
  | eofMark : Atom

/-- Modelled from the spec: locate the `startxref` offset of §4.3,
validated against a trailing `%%EOF` marker: the source must end in
`%%EOF` and the last `startxref` record gives the offset. -/
def findStartxref (src : List Atom) : Option Nat :=
  match src.getLast? with
  | some Atom.eofMark =>
    (src.filterMap
      (fun a =>
        match a with
        | Atom.startxrefMark k => some k
        | _ => none)).getLast?
  | _ => none

/-- Modelled from the spec: the typed xref failures of §4.3: a broken
offset chain, a cyclic chain, or a referenced offset out of bounds. -/
inductive XrefFailure where
  | brokenChain : XrefFailure
  | cyclicChain : XrefFailure
  | offsetOutOfBounds : XrefFailure
deriving DecidableEq, Repr

/-- Modelled from the spec: follow the trailer `/Prev` chain of §4.3
starting from an offset, newest first, with a visited-set cycle guard
and a fuel bound; the resulting section list is ordered earliest-first
(so that overlaying it left to right lets later updates override).
Fails with the matching `XrefFailure` when the chain is broken, cyclic,
or an offset is out of bounds. -/
def readXrefChain (src : List Atom) :
    Nat → List Nat → Nat → Except XrefFailure (List XrefSection)
  | 0, _, _ => Except.error XrefFailure.cyclicChain
  | fuel + 1, visited, off =>
    if off ∈ visited then Except.error XrefFailure.cyclicChain
    else
      match src.get? off with
      | some (Atom.xrefSec sec) =>
        match src.get? (off + 1) with
        | some (Atom.trailerDict _ prevOff) =>
          match prevOff with
          | none => Except.ok [sec]
          | some p =>
            match readXrefChain src fuel (off :: visited) p with
            | Except.ok earlier => Except.ok (earlier ++ [sec])
            | Except.error e => Except.error e
        | _ => Except.error XrefFailure.brokenChain
      | some _ => Except.error XrefFailure.brokenChain
      | none => Except.error XrefFailure.offsetOutOfBounds

/-- Modelled from the spec: the `/Root` (catalog) object number named by
the trailer sitting next to the xref section at the given offset
(§4.3, glossary). -/
def trailerRootAt (src : List Atom) (off : Nat) : Option Nat :=
  match src.get? (off + 1) with
  | some (Atom.trailerDict r _) => some r
  | _ => none

/-- Modelled from the spec: the whole xref-locating attempt of §4.3:
find `startxref` (validated by `%%EOF`), read the `/Prev` chain, and
read the newest trailer's `/Root`; any failure is a typed
`XrefFailure`. -/
def xrefAttempt (src : List Atom) :
    Except XrefFailure (List XrefSection × Nat) :=
  match findStartxref src with
  | none => Except.error XrefFailure.brokenChain
  | some off =>
    match readXrefChain src (src.length + 1) [] off with
    | Except.error e => Except.error e
    | Except.ok secs =>
      match trailerRootAt src off with
      | some r => Except.ok (secs, r)
      | none => Except.error XrefFailure.brokenChain

/-- Modelled from the spec: the brute-force recovery scan of §4.3: one
linear pass over the whole byte source collecting every
`obj` ... `endobj` group into a rebuilt object table. -/
def linearScan : List Atom → List ((Nat × Nat) × PdfObject)
  | [] => []
  | Atom.objBegin n g :: Atom.payload o :: Atom.objEnd :: rest =>
    ((n, g), o) :: linearScan rest
  | _ :: rest => linearScan rest

/-- Modelled from the spec: the outcome of opening a document (§4.3,
§7): loaded through the xref chain (sections plus catalog number),
loaded through the recovery scan (rebuilt object table), or
`DocumentCorrupt`. -/
inductive LoadResult where
  | viaXref : List XrefSection → Nat → LoadResult
  | recovered : List ((Nat × Nat) × PdfObject) → LoadResult
  | corrupt : LoadResult

/-- Modelled from the spec: `open` with the §4.3 recovery policy: try
the xref chain; on any xref failure perform exactly one recovery
attempt (the linear scan) and surface `DocumentCorrupt` only if that
attempt finds nothing.  The second component counts the recovery
attempts performed. -/
def openDocument (src : List Atom) : LoadResult × Nat :=
  match xrefAttempt src with
  | Except.ok (secs, r) => (LoadResult.viaXref secs r, 0)
  | Except.error _ =>
    match linearScan src with
    | [] => (LoadResult.corrupt, 1)
    | t => (LoadResult.recovered t, 1)

/-- Modelled from the spec: dictionary lookup inside a parsed PDF
dictionary (first binding wins; a well-formed dictionary binds each key
once). -/
def dictGet (entries : List (String × PdfObject)) (k : String) :
    Option PdfObject :=
  (entries.filter (fun e => e.1 = k)).head?.map (fun e => e.2)

/-- Modelled from the spec: lookup in the recovery-scan object table by
object number. -/
def tableGet (t : List ((Nat × Nat) × PdfObject)) (n : Nat) :
    Option PdfObject :=
  (t.filter (fun e => e.1.1 = n)).head?.map (fun e => e.2)

/-- Modelled from the spec: parse the indirect object stored at a byte
offset of the source: the `num gen obj` header, the payload, and the
`endobj` marker in sequence (§4.2). -/
def parseObjAt (src : List Atom) (off : Nat) :
    Option (Nat × Nat × PdfObject) :=
  match src.get? off, src.get? (off + 1), src.get? (off + 2) with
  | some (Atom.objBegin n g), some (Atom.payload o), some Atom.objEnd =>
    some (n, g, o)
  | _, _, _ => none

/-- Modelled from the spec: the document built over a byte source from
xref sections, with an empty cache (§3). -/
def docFromXref (src : List Atom) (secs : List XrefSection) : Document :=
  { sections := secs, parseAt := parseObjAt src,
    containerAt := fun _ _ => none, cache := [] }

/-- Modelled from the spec: object access by number through the
effective xref map, at the generation the map itself records. -/
def getObjX (src : List Atom) (secs : List XrefSection) (n : Nat) :
    Option PdfObject :=
  match effectiveXref secs n with
  | some e => fetch (docFromXref src secs) n e.generation
  | none => none

/-- Modelled from the spec: the depth-first page-tree walk of §4.4 over
`/Kids` arrays: a `/Type /Page` node counts one, a `/Type /Pages` node
sums over its kids (following indirect references through the given
accessor), and a fuel bound converts a would-be infinite walk on a
malformed tree into a finite result (§9 cycle guard). -/
def countPages (getObj : Nat → Option PdfObject) :
    Nat → PdfObject → Nat
  | 0, _ => 0
  | fuel + 1, PdfObject.dict entries =>
    match dictGet entries "Type" with
    | some (PdfObject.name "Page") => 1
    | some (PdfObject.name "Pages") =>
      match dictGet entries "Kids" with
      | some (PdfObject.arr kids) =>
        (kids.map
          (fun kid =>
            match kid with
            | PdfObject.ref n _ =>
              match getObj n with
              | some o => countPages getObj fuel o
              | none => 0
            | o => countPages getObj fuel o)).sum
      | _ => 0
    | _ => 0
  | _ + 1, _ => 0

/-- Modelled from the spec: whether an object is the document catalog
(`/Type /Catalog`, glossary). -/
def isCatalogObj : PdfObject → Bool
  | PdfObject.dict entries =>
    match dictGet entries "Type" with
    | some (PdfObject.name t) => t = "Catalog"
    | _ => false
  | _ => false

/-- Modelled from the spec: `pageCount` from a catalog object: follow
its `/Pages` entry (resolving an indirect reference through the
accessor) and walk the page tree (§4.4). -/
def pageCountFrom (getObj : Nat → Option PdfObject) (fuel : Nat)
    (catalog : PdfObject) : Option Nat :=
  match catalog with
  | PdfObject.dict entries =>
    match dictGet entries "Pages" with
    | some (PdfObject.ref p _) => (getObj p).map (countPages getObj fuel)
    | some o => some (countPages getObj fuel o)
    | none => none
  | _ => none

/-- Modelled from the spec: `pageCount` of an opened document: through
the xref chain the catalog comes from the newest trailer's `/Root`;
after recovery the catalog is found by scanning the rebuilt table for
`/Type /Catalog`; a corrupt document has no page count (§4.3, §4.4). -/
def pageCountOf (src : List Atom) : Option Nat :=
  match openDocument src with
  | (LoadResult.viaXref secs r, _) =>
    match getObjX src secs r with
    | some cat => pageCountFrom (getObjX src secs) (src.length + 1) cat
    | none => none
  | (LoadResult.recovered t, _) =>
    match t.find? (fun e => isCatalogObj e.2) with
    | some e => pageCountFrom (tableGet t) (t.length + 1) e.2
    | none => none
  | (LoadResult.corrupt, _) => none

/-- A minimal one-page document whose `startxref` points past EOF
(offset 99 in an 11-atom source): catalog object 1, page-tree root
object 2 with a single kid, page object 3. -/
def minimalBrokenDoc : List Atom :=
  [Atom.objBegin 1 0,
   Atom.payload (PdfObject.dict
     [("Type", PdfObject.name "Catalog"), ("Pages", PdfObject.ref 2 0)]),
   Atom.objEnd,
   Atom.objBegin 2 0,
   Atom.payload (PdfObject.dict
     [("Type", PdfObject.name "Pages"),
      ("Kids", PdfObject.arr [PdfObject.ref 3 0]),
      ("Count", PdfObject.integer 1)]),
   Atom.objEnd,
   Atom.objBegin 3 0,
   Atom.payload (PdfObject.dict [("Type", PdfObject.name "Page")]),
   Atom.objEnd,
   Atom.startxrefMark 99,
   Atom.eofMark]

/-- Modelled from the spec: the authentication result of §4.6. -/
inductive AuthResult where
  | owner : AuthResult
  | user : AuthResult
  | denied : AuthResult
deriving DecidableEq, Repr

/-- Modelled from the spec: the §4.6 constant-time-safe byte
comparison: xor corresponding bytes, accumulate with bitwise or, and
test the accumulator once at the end — no data-dependent early exit. -/
def ctEqBytes (a b : List Nat) : Bool :=
  decide (a.length = b.length) &&
    decide ((List.zipWith (fun x y => x ^^^ y) a b).foldl
      (fun acc x => acc ||| x) 0 = 0)

/-- Modelled from the spec: the work `ctEqBytes` performs: one xor plus
one or-accumulation per compared byte position (the timing-relevant
operation count). -/
def ctEqCost (a b : List Nat) : Nat :=
  (List.zipWith (fun x y => x ^^^ y) a b).length

/-- Modelled from the spec: the security handler of §4.6 and the
glossary: encryption revision, key length in bits (revision 2 with
40-bit keys is RC4-40), and the stored owner and user keys. -/
structure SecurityHandler where
  revision : Nat
  keyBits : Nat
  ownerKey : List Nat
  userKey : List Nat

/-- Modelled from the spec: an encrypted document: its security handler
together with the revision-specific password-to-key derivations
(RC4-40/128 or AES based, §4.6), abstracted as functions from password
bytes to derived bytes. -/
structure EncryptedDoc where
  handler : SecurityHandler
  ownerHash : List Nat → List Nat
  userHash : List Nat → List Nat

/-- Modelled from the spec: `authenticate` of §4.6: derive both
candidate keys, compare each against the stored keys with the
constant-time comparison, and answer Owner, then User, else Denied. -/
def authenticate (d : EncryptedDoc) (pwd : List Nat) : AuthResult :=
  let okOwner := ctEqBytes (d.ownerHash pwd) d.handler.ownerKey
  let okUser := ctEqBytes (d.userHash pwd) d.handler.userKey
  if okOwner then AuthResult.owner
  else if okUser then AuthResult.user
  else AuthResult.denied

/-- Modelled from the spec: the total comparison work a call to
`authenticate` performs: both checks always run, so the cost is the sum
of both constant-time comparisons. -/
def authCost (d : EncryptedDoc) (pwd : List Nat) : Nat :=
  ctEqCost (d.ownerHash pwd) d.handler.ownerKey +
    ctEqCost (d.userHash pwd) d.handler.userKey

/-- A concrete document for cache witnesses: one xref section mapping
object 1 to an in-use entry at offset 0, a byte source holding
`1 0 obj null endobj` there, and a cache already holding a boolean for
key (7, 0). -/
def dExC5 : Document :=
  { sections := [[(1, { kind := XrefKind.inUse 0, generation := 0 })]],
    parseAt := parseObjAt
      [Atom.objBegin 1 0, Atom.payload PdfObject.null, Atom.objEnd],
    containerAt := fun _ _ => none,
    cache := [((7, 0), PdfObject.boolean true)] }

/-- A concrete RC4-40 encrypted document for authentication witnesses:
the derivations are the identity, the stored owner key is [1, 2] and
the stored user key is [3, 4]. -/
def dExC8 : EncryptedDoc :=
  { handler := { revision := 2, keyBits := 40,
                 ownerKey := [1, 2], userKey := [3, 4] },
    ownerHash := fun pwd => pwd,
    userHash := fun pwd => pwd }

/-- The xref entry object 1 had in the original (earlier) update: in
use at offset 0. -/
def eOldC4 : XrefEntry := { kind := XrefKind.inUse 0, generation := 0 }

/-- The xref entry object 1 has in the most recent incremental update:
in use at offset 3. -/
def eNewC4 : XrefEntry := { kind := XrefKind.inUse 3, generation := 0 }

/-- A byte source holding two bodies for object 1: the original value
10 at offset 0 and the incremental-update value 20 at offset 3. -/
def srcC4 : List Atom :=
  [Atom.objBegin 1 0, Atom.payload (PdfObject.integer 10), Atom.objEnd,
   Atom.objBegin 1 0, Atom.payload (PdfObject.integer 20), Atom.objEnd]

/-- The document over `srcC4` whose xref chain has both updates
(earliest first). -/
def d1C4 : Document :=
  { sections := [[(1, eOldC4)], [(1, eNewC4)]],
    parseAt := parseObjAt srcC4,
    containerAt := fun _ _ => none, cache := [] }

/-- The document over `srcC4` whose xref chain has only the most recent
update. -/
def d2C4 : Document :=
  { sections := [[(1, eNewC4)]],
    parseAt := parseObjAt srcC4,
    containerAt := fun _ _ => none, cache := [] }

end PdfCore

namespace Binding

/-- Registry lookup after a registry write of the same name yields the
written module (helper). -/
theorem getModule_setModule (n : String) (m : PyModule) (s : PyState) :
    getModule (setModule n m s) n = some m := by
  unfold getModule setModule
  simp [List.filter_append, List.filter_filter]

/-- Merging a low block into a shifted value by bitwise or is plain
addition when the low block fits under the shift. -/
theorem lor_two_pow_mul_add (a b k : Nat) (hb : b < 2 ^ k) :
    (2 ^ k * a) ||| b = 2 ^ k * a + b := by
  apply Nat.eq_of_testBit_eq
  intro i
  rw [Nat.testBit_lor, Nat.testBit_mul_pow_two_add a hb i]
  rw [mul_comm, ← Nat.shiftLeft_eq, Nat.testBit_shiftLeft]
  by_cases h : i < k
  · simp [h, Nat.not_le.mpr h]
  · have hbi : b.testBit i = false :=
      Nat.testBit_lt_two_pow
        (lt_of_lt_of_le hb (Nat.pow_le_pow_right (by norm_num) (Nat.le_of_not_lt h)))
    simp [h, Nat.le_of_not_lt h, hbi]

/-- The version macro is the positional sum of its fields when each
component fits in one byte. -/
theorem hex_sum (maj minor micro : Nat) (_h1 : maj < 256) (h2 : minor < 256)
    (h3 : micro < 256) :
    pycairoVersionHex maj minor micro =
      maj * 2 ^ 24 + minor * 2 ^ 16 + micro * 2 ^ 8 := by
  unfold pycairoVersionHex
  rw [Nat.shiftLeft_eq, Nat.shiftLeft_eq, Nat.shiftLeft_eq]
  rw [mul_comm maj (2 ^ 24)]
  rw [lor_two_pow_mul_add maj (minor * 2 ^ 16) 24 (by nlinarith)]
  have hrw : 2 ^ 24 * maj + minor * 2 ^ 16 = 2 ^ 16 * (2 ^ 8 * maj + minor) := by
    ring
  rw [hrw, lor_two_pow_mul_add (2 ^ 8 * maj + minor) (micro * 2 ^ 8) 16 (by nlinarith)]

/-- The low byte of the version macro is always zero. -/
theorem hex_low_byte (maj minor micro : Nat) :
    pycairoVersionHex maj minor micro % 256 = 0 := by
  have h256 : (256 : Nat) = 2 ^ 8 := by norm_num
  rw [h256]
  apply Nat.eq_of_testBit_eq
  intro i
  rw [Nat.testBit_mod_two_pow, Nat.zero_testBit]
  unfold pycairoVersionHex
  by_cases h : i < 8
  · have h24 : ¬ (i ≥ 24) := by omega
    have h16 : ¬ (i ≥ 16) := by omega
    have h8 : ¬ (i ≥ 8) := by omega
    simp [Nat.testBit_lor, Nat.testBit_shiftLeft, h, h24, h16, h8]
  · simp [h]

/-- Claim C1, counterexample.  In an execution of `initpoppler` in which
an error is pending after registration, the function does NOT report the
error to the caller: the run ends in `Py_FatalError`, which terminates
the process (lines 59-61 of `popplermodule.c`), refuting the claim at
this concrete input. -/
theorem C1_counterexample :
    (initpoppler envC1 st0).1.errorPending = true ∧
      (initpoppler envC1 st0).2.2 ≠ InitOutcome.returned := by
  constructor
  · rfl
  · decide

/-- Claim C1, amended.  When an error is pending after registration,
`initpoppler` terminates the process through `Py_FatalError` instead of
returning to the caller; it returns normally exactly when no error is
pending. -/
theorem C1_amended_fatal_on_pending_error (env : BindingEnv) (s : PyState) :
    (initpoppler env s).2.2 = InitOutcome.fatalExit ↔
      (s.errorPending || env.registrationError) = true := by
  unfold initpoppler
  by_cases h : s.errorPending || env.registrationError <;> simp [setModule, h]

/-- Claim C2.  A single call to `initpoppler` performs module
initialisation, class registration and constant export, in that order
(the step trace is exactly module init, then one registration step per
class, then one export step per constant, framed by the cairo/pygobject
setup and the version export); the classes land in the module's
dictionary and each constant is exported with the `POPPLER_` pattern
stripped from its name. -/
theorem C2_initpoppler_roles_in_order (env : BindingEnv) (s : PyState) :
    (initpoppler env s).2.1 =
      [InitStep.pycairoImport, InitStep.pygobjectInit,
       InitStep.moduleInit "poppler"]
      ++ env.classes.map InitStep.classRegistration
      ++ (exportedConstants "POPPLER_" env.constants).map
           (fun c => InitStep.constantExport c.1 c.2)
      ++ [InitStep.versionExport]
    ∧ getModule (initpoppler env s).1 "poppler" =
        some { dict :=
          (env.classes.map (fun c => (c, PyValue.classObj c))
           ++ (exportedConstants "POPPLER_" env.constants).map
                (fun c => (c.1, PyValue.constObj c.1 c.2))
           ++ [("pypoppler_version",
                PyValue.tuple3 env.verMajor env.verMinor env.verMicro)]) } := by
  unfold initpoppler
  by_cases h : s.errorPending || env.registrationError <;>
    simp [setModule, getModule, List.filter_append, List.filter_filter, h]

/-- Claim C3.  Every call to `initpoppler`, from any prior interpreter
state, writes process-wide state: it stores the file-scope
`Pycairo_CAPI` pointer, marks pygobject initialised, and registers the
module under "poppler" in the interpreter's global module registry —
mutations of the shared process state, not of a per-document
instance. -/
theorem C3_global_state_mutation (env : BindingEnv) (s : PyState) :
    (initpoppler env s).1.pycairoCAPI = some () ∧
      (initpoppler env s).1.pygobjectReady = true ∧
      (getModule (initpoppler env s).1 "poppler").isSome := by
  unfold initpoppler
  by_cases h : s.errorPending || env.registrationError <;>
    simp [setModule, getModule, List.filter_append, List.filter_filter, h]

/-- Claim C9.  The `PYCAIRO_VERSION_HEX` macro packs the three version
components into disjoint byte fields: with every component below 256 its
value is `major * 2^24 + minor * 2^16 + micro * 2^8`, integer order on
two such packed values agrees with lexicographic order on the component
triples, and the low 8 bits are zero. -/
theorem C9_pycairo_version_hex_packing (m1 n1 u1 m2 n2 u2 : Nat)
    (h1 : m1 < 256) (h2 : n1 < 256) (h3 : u1 < 256)
    (h4 : m2 < 256) (h5 : n2 < 256) (h6 : u2 < 256) :
    pycairoVersionHex m1 n1 u1 = m1 * 2 ^ 24 + n1 * 2 ^ 16 + u1 * 2 ^ 8
    ∧ (pycairoVersionHex m1 n1 u1 < pycairoVersionHex m2 n2 u2 ↔
        (m1 < m2 ∨ (m1 = m2 ∧ (n1 < n2 ∨ (n1 = n2 ∧ u1 < u2)))))
    ∧ pycairoVersionHex m1 n1 u1 % 256 = 0 := by
  refine ⟨hex_sum m1 n1 u1 h1 h2 h3, ?_, hex_low_byte m1 n1 u1⟩
  rw [hex_sum m1 n1 u1 h1 h2 h3, hex_sum m2 n2 u2 h4 h5 h6]
  constructor
  · intro h; omega
  · intro h; omega

/-- Witness for claim C9 at the concrete versions (1, 8, 10) and
(1, 10, 2). -/
theorem C9_witness :
    pycairoVersionHex 1 8 10 = 1 * 2 ^ 24 + 8 * 2 ^ 16 + 10 * 2 ^ 8
    ∧ (pycairoVersionHex 1 8 10 < pycairoVersionHex 1 10 2 ↔
        (1 < 1 ∨ (1 = 1 ∧ (8 < 10 ∨ (8 = 10 ∧ 10 < 2)))))
    ∧ pycairoVersionHex 1 8 10 % 256 = 0 :=
  C9_pycairo_version_hex_packing 1 8 10 1 10 2 (by decide) (by decide)
    (by decide) (by decide) (by decide) (by decide)

/-- Claim C10.  After `initpoppler` runs, the module registered as
"poppler" exposes the attribute `pypoppler_version`, and its value is
exactly the 3-tuple of the `PYPOPPLER_MAJOR_VERSION`,
`PYPOPPLER_MINOR_VERSION`, `PYPOPPLER_MICRO_VERSION` build constants. -/
theorem C10_pypoppler_version_attribute (env : BindingEnv) (s : PyState) :
    ∃ m : PyModule, getModule (initpoppler env s).1 "poppler" = some m ∧
      pyDictGet m.dict "pypoppler_version" =
        some (PyValue.tuple3 env.verMajor env.verMinor env.verMicro) := by
  unfold initpoppler
  by_cases h : s.errorPending || env.registrationError <;>
    simp [setModule, getModule, pyDictGet, List.filter_append,
          List.filter_filter, h]

end Binding

namespace PdfCore

/-- Overlaying a final section on any earlier chain gives that section's
entry at every object number it mentions (helper). -/
theorem effectiveXref_append_last (ss : List XrefSection) (s : XrefSection)
    (n : Nat) (e : XrefEntry) (h : List.lookup n s = some e) :
    effectiveXref (ss ++ [s]) n = some e := by
  simp [effectiveXref, List.foldl_append, h]

/-- A single-section chain resolves to that section's entries
(helper). -/
theorem effectiveXref_single (s : XrefSection) (n : Nat) (e : XrefEntry)
    (h : List.lookup n s = some e) :
    effectiveXref [s] n = some e := by
  simp [effectiveXref, h]

/-- Claim C4.  Shadowing invariant: when the most recent incremental
update's section maps an object number to an entry, the effective xref
map built by overlaying the /Prev chain earliest-first yields exactly
that entry, whatever the earlier sections say; consequently `resolve`
on two documents over the same byte source — one carrying the full
chain, one carrying only the latest section — returns the same object,
so the result never comes from an earlier update. -/
theorem C4_xref_shadowing (ss : List XrefSection) (s : XrefSection)
    (n : Nat) (e : XrefEntry) (h : List.lookup n s = some e) :
    effectiveXref (ss ++ [s]) n = some e
    ∧ ∀ d1 d2 : Document, d1.sections = ss ++ [s] → d2.sections = [s] →
        d1.parseAt = d2.parseAt → d1.containerAt = d2.containerAt →
        d1.cache = [] → d2.cache = [] →
        ∀ g, (resolve d1 n g).1 = (resolve d2 n g).1 := by
  refine ⟨effectiveXref_append_last ss s n e h, ?_⟩
  intro d1 d2 h1 h2 hp hcont hc1 hc2 g
  have hfetch : fetch d1 n g = fetch d2 n g := by
    unfold fetch
    rw [h1, h2, effectiveXref_append_last ss s n e h,
        effectiveXref_single s n e h, hp, hcont]
  unfold resolve
  rw [hc1, hc2]
  simp [cacheGet, hfetch]
  cases fetch d2 n g <;> simp

/-- Witness for claim C4: object 1 is present in both updates of
`srcC4`; the overlay yields the newer entry, resolution agrees with the
latest-only document, and the resolved value is the update-2 body 20,
not the original 10. -/
theorem C4_witness :
    effectiveXref ([[(1, eOldC4)]] ++ [[(1, eNewC4)]]) 1 = some eNewC4
    ∧ (resolve d1C4 1 0).1 = (resolve d2C4 1 0).1
    ∧ (resolve d1C4 1 0).1 = some (PdfObject.integer 20) :=
  ⟨(C4_xref_shadowing [[(1, eOldC4)]] [(1, eNewC4)] 1 eNewC4 rfl).1,
   (C4_xref_shadowing [[(1, eOldC4)]] [(1, eNewC4)] 1 eNewC4 rfl).2
     d1C4 d2C4 rfl rfl rfl rfl rfl rfl 0,
   rfl⟩

/-- Claim C5.  Resolution idempotence and caching: resolving the same
(objectNumber, generation) a second time returns the same content as
the first, a successful first resolution leaves the object in the cache
(so the second resolution is served from it), and no pre-existing cache
entry is ever evicted by a resolution. -/
theorem C5_resolve_idempotent_cache (d : Document) (num gen : Nat) :
    ((resolve (resolve d num gen).2 num gen).1 = (resolve d num gen).1)
    ∧ (∀ v, (resolve d num gen).1 = some v →
        cacheGet (resolve d num gen).2.cache (num, gen) = some v)
    ∧ (∀ k v, cacheGet d.cache k = some v →
        cacheGet (resolve d num gen).2.cache k = some v) := by
  cases hc : cacheGet d.cache (num, gen) with
  | some v =>
    have hres : resolve d num gen = (some v, d) := by
      unfold resolve; rw [hc]
    refine ⟨by simp [hres], ?_, ?_⟩
    · intro v2 hv2
      simp [hres] at hv2 ⊢
      rw [hc, hv2]
    · intro k v2 hk
      simp [hres]
      exact hk
  | none =>
    cases hf : fetch d num gen with
    | some v =>
      have hres : resolve d num gen =
          (some v, { d with cache := ((num, gen), v) :: d.cache }) := by
        unfold resolve; rw [hc, hf]
      refine ⟨?_, ?_, ?_⟩
      · have hres2 : resolve { d with cache := ((num, gen), v) :: d.cache }
            num gen =
            (some v, { d with cache := ((num, gen), v) :: d.cache }) := by
          unfold resolve
          simp [cacheGet]
        simp [hres, hres2]
      · intro v2 hv2
        simp [hres] at hv2 ⊢
        simp [cacheGet, hv2]
      · intro k v2 hk
        simp [hres]
        by_cases hkey : k = (num, gen)
        · rw [hkey, hc] at hk
          exact absurd hk (by simp)
        · simp [cacheGet, Ne.symm hkey, hk]
    | none =>
      have hres : resolve d num gen = (none, d) := by
        unfold resolve; rw [hc, hf]
      refine ⟨by simp [hres], ?_, ?_⟩
      · intro v2 hv2
        simp [hres] at hv2
      · intro k v2 hk
        simp [hres]
        exact hk

/-- Witness for claim C5 on the concrete document `dExC5`: resolving
(1, 0) twice gives the same answer, the resolved null lands in the
cache, and the pre-existing entry for (7, 0) survives. -/
theorem C5_witness :
    ((resolve (resolve dExC5 1 0).2 1 0).1 = (resolve dExC5 1 0).1)
    ∧ cacheGet (resolve dExC5 1 0).2.cache (1, 0) = some PdfObject.null
    ∧ cacheGet (resolve dExC5 1 0).2.cache (7, 0) =
        some (PdfObject.boolean true) :=
  ⟨(C5_resolve_idempotent_cache dExC5 1 0).1,
   (C5_resolve_idempotent_cache dExC5 1 0).2.1 PdfObject.null rfl,
   (C5_resolve_idempotent_cache dExC5 1 0).2.2 (7, 0)
     (PdfObject.boolean true) rfl⟩

/-- A token sequence without operator keywords interprets to no
operations and no errors, from any operand stack (helper). -/
theorem interpret_no_ops (toks : List CToken)
    (h : ∀ t ∈ toks, ∀ k, t ≠ CToken.opKeyword k) :
    ∀ stack, interpretTokens toks stack = ([], []) := by
  induction toks with
  | nil => intro stack; rfl
  | cons t rest ih =>
    intro stack
    cases t with
    | operand o =>
      have h2 : ∀ t ∈ rest, ∀ k, t ≠ CToken.opKeyword k := by
        intro t ht k
        exact h t (List.mem_cons_of_mem _ ht) k
      exact ih h2 (stack ++ [o])
    | opKeyword k =>
      exact absurd rfl (h (CToken.opKeyword k) (List.mem_cons_self _ _) k)

/-- Claim C6.  Empty-content boundary: a page whose content stream
contains zero operators (no operator keyword among its tokens, in
particular an empty stream) yields an empty finite operation sequence
and an empty error list — no error is raised. -/
theorem C6_empty_content_ops (p : Page)
    (h : ∀ t ∈ p.contentTokens, ∀ k, t ≠ CToken.opKeyword k) :
    operations p = ([], []) :=
  interpret_no_ops p.contentTokens h []

/-- Witness for claim C6 at the truly empty content stream. -/
theorem C6_witness : operations { contentTokens := [] } = ([], []) :=
  C6_empty_content_ops { contentTokens := [] } (by simp)

/-- Claim C7.  Xref recovery policy: whenever the xref-locating attempt
fails (broken, cyclic or out-of-bounds chain), opening performs exactly
one recovery attempt — the linear scan — and surfaces DocumentCorrupt
precisely when the scan finds nothing; the concrete minimal one-page
document whose startxref points past EOF fails its xref attempt with
an out-of-bounds offset and still yields page count 1 through the
fallback. -/
theorem C7_xref_recovery (src : List Atom) (e : XrefFailure)
    (h : xrefAttempt src = Except.error e) :
    (openDocument src).2 = 1
    ∧ ((openDocument src).1 = LoadResult.corrupt ↔ linearScan src = [])
    ∧ xrefAttempt minimalBrokenDoc =
        Except.error XrefFailure.offsetOutOfBounds
    ∧ pageCountOf minimalBrokenDoc = some 1 := by
  have hopen : openDocument src =
      (match linearScan src with
       | [] => (LoadResult.corrupt, 1)
       | t => (LoadResult.recovered t, 1)) := by
    unfold openDocument; rw [h]
  refine ⟨?_, ?_, rfl, rfl⟩
  · rw [hopen]; cases linearScan src <;> simp
  · rw [hopen]; cases linearScan src <;> simp

/-- Witness for claim C7 at the minimal broken document itself. -/
theorem C7_witness :
    (openDocument minimalBrokenDoc).2 = 1
    ∧ ((openDocument minimalBrokenDoc).1 = LoadResult.corrupt ↔
        linearScan minimalBrokenDoc = [])
    ∧ xrefAttempt minimalBrokenDoc =
        Except.error XrefFailure.offsetOutOfBounds
    ∧ pageCountOf minimalBrokenDoc = some 1 :=
  C7_xref_recovery minimalBrokenDoc XrefFailure.offsetOutOfBounds rfl

/-- Bitwise or of naturals is zero exactly when both sides are
(helper). -/
theorem nat_lor_eq_zero_iff (a b : Nat) : a ||| b = 0 ↔ a = 0 ∧ b = 0 := by
  constructor
  · intro h
    constructor
    · apply Nat.eq_of_testBit_eq
      intro i
      have h2 := congrArg (fun x => Nat.testBit x i) h
      simp [Nat.testBit_lor] at h2
      simp [h2.1]
    · apply Nat.eq_of_testBit_eq
      intro i
      have h2 := congrArg (fun x => Nat.testBit x i) h
      simp [Nat.testBit_lor] at h2
      simp [h2.2]
  · rintro ⟨rfl, rfl⟩
    rfl

/-- An or-accumulation is zero exactly when the accumulator and every
element are zero (helper). -/
theorem foldl_lor_eq_zero (l : List Nat) :
    ∀ acc, (l.foldl (fun a x => a ||| x) acc = 0 ↔
      acc = 0 ∧ ∀ x ∈ l, x = 0) := by
  induction l with
  | nil => intro acc; simp
  | cons y l ih =>
    intro acc
    simp [List.foldl_cons, ih, nat_lor_eq_zero_iff, and_assoc]

/-- Equal-length byte lists whose pointwise xors are all zero are equal
(helper). -/
theorem eq_of_len_zip : ∀ {a b : List Nat}, a.length = b.length →
    (∀ x ∈ List.zipWith (fun x y => x ^^^ y) a b, x = 0) → a = b := by
  intro a
  induction a with
  | nil =>
    intro b hlen _
    cases b with
    | nil => rfl
    | cons y b => simp at hlen
  | cons x a ih =>
    intro b hlen hz
    cases b with
    | nil => simp at hlen
    | cons y b =>
      simp [List.forall_mem_cons, Nat.xor_eq_zero] at hz
      simp at hlen
      rw [hz.1, ih hlen hz.2]

/-- The constant-time comparison decides byte-list equality
(helper). -/
theorem ctEqBytes_iff (a b : List Nat) : ctEqBytes a b = true ↔ a = b := by
  constructor
  · intro h
    unfold ctEqBytes at h
    simp at h
    exact eq_of_len_zip h.1 ((foldl_lor_eq_zero _ 0).mp h.2).2
  · rintro rfl
    unfold ctEqBytes
    simp [foldl_lor_eq_zero]

/-- Claim C8.  Authentication gate, for every encrypted document: the
comparison work `authenticate` performs is exactly a function of the
lengths of the derived and stored keys, never of their contents (the
constant-time-safety of the password comparison); every password
failing both checks is Denied; any two such wrong passwords are
indistinguishable through the result (the single Denied constructor
reveals nothing about which internal check failed); and on an RC4-40
document (revision 2, 40-bit keys) the correct owner password
authenticates as Owner. -/
theorem C8_authentication_gate (d : EncryptedDoc) :
    (∀ q : List Nat,
        authCost d q =
          min (d.ownerHash q).length d.handler.ownerKey.length +
            min (d.userHash q).length d.handler.userKey.length)
    ∧ (∀ w : List Nat, d.ownerHash w ≠ d.handler.ownerKey →
        d.userHash w ≠ d.handler.userKey →
        authenticate d w = AuthResult.denied)
    ∧ (∀ w1 w2 : List Nat, d.ownerHash w1 ≠ d.handler.ownerKey →
        d.userHash w1 ≠ d.handler.userKey →
        d.ownerHash w2 ≠ d.handler.ownerKey →
        d.userHash w2 ≠ d.handler.userKey →
        authenticate d w1 = authenticate d w2)
    ∧ (∀ p : List Nat, d.handler.revision = 2 → d.handler.keyBits = 40 →
        d.ownerHash p = d.handler.ownerKey →
        authenticate d p = AuthResult.owner) := by
  have hfalse : ∀ a b : List Nat, a ≠ b → ctEqBytes a b = false := by
    intro a b hne
    rw [← Bool.not_eq_true]
    intro hx
    exact hne ((ctEqBytes_iff a b).mp hx)
  refine ⟨?_, ?_, ?_, ?_⟩
  · intro q
    unfold authCost ctEqCost
    simp [List.length_zipWith]
  · intro w hwo hwu
    simp [authenticate, hfalse _ _ hwo, hfalse _ _ hwu]
  · intro w1 w2 h1o h1u h2o h2u
    simp [authenticate, hfalse _ _ h1o, hfalse _ _ h1u,
          hfalse _ _ h2o, hfalse _ _ h2u]
  · intro p _hrev _hbits hp
    simp [authenticate, (ctEqBytes_iff _ _).mpr hp]

/-- Witness for claim C8 on the concrete RC4-40 document `dExC8`: the
comparison cost for the wrong password [5] is the length-only
expression, the wrong passwords [5] and [6, 6] are both Denied with
equal results, and the owner password [1, 2] is accepted as Owner. -/
theorem C8_witness :
    authCost dExC8 [5] =
      min ([5] : List Nat).length ([1, 2] : List Nat).length +
        min ([5] : List Nat).length ([3, 4] : List Nat).length
    ∧ authenticate dExC8 [5] = AuthResult.denied
    ∧ authenticate dExC8 [5] = authenticate dExC8 [6, 6]
    ∧ authenticate dExC8 [1, 2] = AuthResult.owner :=
  ⟨(C8_authentication_gate dExC8).1 [5],
   (C8_authentication_gate dExC8).2.1 [5] (by decide) (by decide),
   (C8_authentication_gate dExC8).2.2.1 [5] [6, 6] (by decide) (by decide)
     (by decide) (by decide),
   (C8_authentication_gate dExC8).2.2.2 [1, 2] rfl rfl rfl⟩

end PdfCore
